import Mathlib

/-!
Verification of the terminal-mcp-agent command pipeline
(`src/agent/graph.py`, `src/agent/state.py`, `src/agent/tools_and_schemas.py`).

The pipeline is a three-stage LangGraph workflow over a `TypedDict` state:
`parse_user_command` → conditional routing by `should_execute_tool` →
(`execute_mcp_tool` →) `format_tool_output`.  Each node returns a partial
update dict that is merged into the state (a returned key overwrites the
channel, an absent key leaves it untouched); we model this by `{ s with ... }`
records that set exactly the keys the node returns.

Python runtime values stored in the state (`tool_output : Any`, the `args`
dict) are modelled by the inductive `PyVal`.  `obj` stands for an arbitrary
object that is not JSON-serializable; the string it carries is its `str()`
rendering.  Python truthiness of the optional string/dict channels is modelled
explicitly (`None` and the empty string/dict are falsy).

The external LLM call (`structured_llm.invoke`) is the single outside
collaborator of the parser; its outcome is passed in as an explicit
`LLMOutcome` value: a `ParsedCommand` (tool name + args dict), a value that is
not a `ParsedCommand` (which the code turns into a raised `ValueError`), or a
raised exception carrying a detail string.
-/

namespace TerminalAgent

/-- A Python runtime value as it can appear in the agent state: a string, an
integer, `None`, a list, a string-keyed dict, or an opaque non-JSON-serializable
object whose `str()`/`repr()` rendering is the carried string. -/
inductive PyVal where
  | str (s : String)
  | int (n : Int)
  | pynone
  | list (xs : List PyVal)
  | dict (xs : List (String × PyVal))
  | obj (s : String)

/-- A Python string-keyed dict, as an association list (keys unique in all
values the program builds). -/
abbrev Dict := List (String × PyVal)

/-- `d.get(k)` on a Python dict: the value at the first matching key, if any. -/
def dget (d : Dict) (k : String) : Option PyVal :=
  (d.find? (fun p => p.1 == k)).map (fun p => p.2)

mutual

/-- Python `str()` on a `PyVal`.  Lists and dicts render as Python does, with
`repr()` applied to their elements.  (Escaping of quotes/control characters
inside `repr()` of a string is elided; no value built by the program under
verification contains such characters.) -/
def pyStr : PyVal → String
  | .str s => s
  | .int n => toString n
  | .pynone => "None"
  | .obj s => s
  | .list xs => "[" ++ String.intercalate ", " (pyReprList xs) ++ "]"
  | .dict xs => "\x7b" ++ String.intercalate ", " (pyReprDict xs) ++ "\x7d"

/-- Python `repr()` on a `PyVal`. -/
def pyRepr : PyVal → String
  | .str s => "\x27" ++ s ++ "\x27"
  | .int n => toString n
  | .pynone => "None"
  | .obj s => s
  | .list xs => "[" ++ String.intercalate ", " (pyReprList xs) ++ "]"
  | .dict xs => "\x7b" ++ String.intercalate ", " (pyReprDict xs) ++ "\x7d"

/-- `repr()` of each element of a Python list. -/
def pyReprList : List PyVal → List String
  | [] => []
  | x :: xs => pyRepr x :: pyReprList xs

/-- `repr(k): repr(v)` for each entry of a Python dict. -/
def pyReprDict : List (String × PyVal) → List String
  | [] => []
  | (k, v) :: xs => ("\x27" ++ k ++ "\x27: " ++ pyRepr v) :: pyReprDict xs

end

/-- Minimal JSON string escaping (backslash, double quote, newline), as
`json.dumps` performs on the characters occurring in this program. -/
def jsonEscapeChar (c : Char) : String :=
  if c = Char.ofNat 92 then "\\\\"
  else if c = Char.ofNat 34 then "\\\""
  else if c = Char.ofNat 10 then "\\n"
  else String.singleton c

/-- JSON escaping of a whole string. -/
def jsonEscape (s : String) : String :=
  String.join (s.data.map jsonEscapeChar)

/-- `n` spaces, the indentation prefix `json.dumps(..., indent=2)` uses. -/
def pad (n : Nat) : String :=
  String.mk (List.replicate n (Char.ofNat 32))

mutual

/-- `json.dumps(v, indent=2)` at current indentation `ind`: `some` of the
serialized text, or `none` when serialization raises `TypeError` (some
non-serializable `obj` occurs inside `v`). -/
def jsonDumps : PyVal → Nat → Option String
  | .str s, _ => some ("\"" ++ jsonEscape s ++ "\"")
  | .int n, _ => some (toString n)
  | .pynone, _ => some "null"
  | .obj _, _ => none
  | .list [], _ => some "[]"
  | .list (x :: xs), ind =>
      match jsonItems (x :: xs) (ind + 2) with
      | none => none
      | some items =>
          some ("[\n" ++ String.intercalate ",\n" (items.map (fun it => pad (ind + 2) ++ it)) ++
            "\n" ++ pad ind ++ "]")
  | .dict [], _ => some "\x7b\x7d"
  | .dict (e :: es), ind =>
      match jsonEntries (e :: es) (ind + 2) with
      | none => none
      | some its =>
          some ("\x7b\n" ++ String.intercalate ",\n" (its.map (fun it => pad (ind + 2) ++ it)) ++
            "\n" ++ pad ind ++ "\x7d")

/-- Serialize every element of a JSON array, failing if any element fails. -/
def jsonItems : List PyVal → Nat → Option (List String)
  | [], _ => some []
  | x :: xs, ind =>
      match jsonDumps x ind, jsonItems xs ind with
      | some a, some b => some (a :: b)
      | _, _ => none

/-- Serialize every `"key": value` entry of a JSON object. -/
def jsonEntries : List (String × PyVal) → Nat → Option (List String)
  | [], _ => some []
  | (k, v) :: xs, ind =>
      match jsonDumps v ind, jsonEntries xs ind with
      | some a, some b => some (("\"" ++ jsonEscape k ++ "\": " ++ a) :: b)
      | _, _ => none

end

/-- The `AgentState` TypedDict of `state.py`: the raw user command, the parsed
command dict, the tool output, and the error message.  `none` models both an
absent channel and a stored Python `None` (LangGraph initializes every channel,
and `dict.get` collapses the two). -/
structure AgentState where
  user_command : Option String
  parsed_command : Option Dict
  tool_output : Option PyVal
  error_message : Option String

/-- Python truthiness of an optional string: `None` and `""` are falsy. -/
def truthyStr : Option String → Bool
  | none => false
  | some s => !s.isEmpty

/-- Python truthiness of an optional dict: `None` and `{}` are falsy. -/
def truthyDict : Option Dict → Bool
  | none => false
  | some d => !d.isEmpty

/-- The outcome of the external LLM call `structured_llm.invoke(prompt)`:
either a `ParsedCommand` value (tool name and args dict), a returned value that
is not a `ParsedCommand` (the code then raises `ValueError("LLM did not return
ParsedCommand")`, caught by its own handler), or an exception raised while
contacting/decoding (network error, malformed response, timeout) carrying the
`str()` of the exception. -/
inductive LLMOutcome where
  | ok (tool_name : String) (args : Dict)
  | notParsedCommand
  | raised (detail : String)

/-- The sentinel tool name the LLM is instructed to return when no tool
applies. -/
def sentinelName : String := "NoSuitableToolFound"

/-- The keys of `tool_map` in `parse_user_command`: the three registered tool
classes of `tools_and_schemas.py`. -/
def knownToolNames : List String :=
  ["ListFilesTool", "ReadFileTool", "CreateDirectoryTool"]

/-- Pydantic validation of `tool_class(**args)` followed by `model_dump()`, for
the three schemas of `tools_and_schemas.py`.  `ListFilesTool.path` is
`Optional[str]` with default `"."`; `ReadFileTool.path` and
`CreateDirectoryTool.path` are required `str` fields.  The pydantic default model
config ignores unknown extra fields (it does not reject them), so only the
field of the schema itself appears in the dump.  On failure the result carries the
validation detail that the code interpolates after the colon. -/
def validateTool (tool : String) (args : Dict) : Except String Dict :=
  if tool = "ListFilesTool" then
    match dget args "path" with
    | none => .ok [("path", .str ".")]
    | some (.str s) => .ok [("path", .str s)]
    | some .pynone => .ok [("path", .pynone)]
    | some _ => .error "path: Input should be a valid string"
  else
    match dget args "path" with
    | none => .error "path: Field required"
    | some (.str s) => .ok [("path", .str s)]
    | some _ => .error "path: Input should be a valid string"

/-- The Parser node `parse_user_command` of `graph.py`, given the outcome of
the LLM call.  Returns the merged state; the update dict of the node always sets
exactly the `parsed_command` and `error_message` channels. -/
def parse_user_command (s : AgentState) (llm : LLMOutcome) : AgentState :=
  match llm with
  | .raised d =>
      { s with parsed_command := none,
               error_message := some ("Error parsing command: " ++ d) }
  | .notParsedCommand =>
      { s with parsed_command := none,
               error_message := some "Error parsing command: LLM did not return ParsedCommand" }
  | .ok tool_name args =>
      if tool_name = sentinelName then
        { s with parsed_command := none,
                 error_message := some ("No suitable tool found for command: " ++
                   (match dget args "original_command" with
                    | some v => pyStr v
                    | none =>
                        match s.user_command with
                        | some c => c
                        | none => "None")) }
      else if tool_name ∈ knownToolNames then
        match validateTool tool_name args with
        | .error d =>
            { s with parsed_command := none,
                     error_message := some ("Invalid arguments for " ++ tool_name ++ ": " ++ d) }
        | .ok validated =>
            { s with parsed_command := some [("tool_name", .str tool_name),
                                             ("args", .dict validated)],
                     error_message := none }
      else
        { s with parsed_command := none,
                 error_message := some ("Unknown tool: " ++ tool_name) }

/-- The single-quote character used inside the mock output strings. -/
def sq : String := "\x27"

/-- The Executor node `execute_mcp_tool` of `graph.py`: guards against a falsy
`parsed_command`, then dispatches on `tool_name` to the three mock handlers.
Sets exactly the `tool_output` and `error_message` channels.  (A non-dict value
under the `args` key would raise `AttributeError` in Python; no reachable state
stores one, and we read it as the empty dict.) -/
def execute_mcp_tool (s : AgentState) : AgentState :=
  if !truthyDict s.parsed_command then
    { s with tool_output := none,
             error_message := some "No command was parsed for execution." }
  else
    let pc := s.parsed_command.getD []
    let tool_name := (dget pc "tool_name").getD .pynone
    let args : Dict :=
      match dget pc "args" with
      | some (.dict d) => d
      | _ => []
    match tool_name with
    | .str "ListFilesTool" =>
      { s with tool_output := some (.str ("Mock success: " ++ sq ++ "ListFilesTool" ++ sq ++
                 " called with path " ++ sq ++ pyStr ((dget args "path").getD (.str ".")) ++ sq)),
               error_message := none }
    | .str "ReadFileTool" =>
      { s with tool_output := some (.str ("Mock success: " ++ sq ++ "ReadFileTool" ++ sq ++
                 " called to read file " ++ sq ++ pyStr ((dget args "path").getD .pynone) ++ sq)),
               error_message := none }
    | .str "CreateDirectoryTool" =>
      { s with tool_output := some (.str ("Mock success: " ++ sq ++ "CreateDirectoryTool" ++ sq ++
                 " called to create directory " ++ sq ++ pyStr ((dget args "path").getD .pynone) ++ sq)),
               error_message := none }
    | tn =>
      { s with tool_output := none,
               error_message := some ("Unknown tool: " ++ pyStr tn) }

/-- The fixed message the Formatter emits when there is no tool output. -/
def noOutputMessage : String := "No output from tool or an earlier error occurred."

/-- The `final_output` computation of the success branch of the Formatter: fixed
message for a missing/`None` output, pass-through for a string,
`json.dumps(..., indent=2)` with `str()` fallback on `TypeError` for any other
value. -/
def finalOutput : Option PyVal → String
  | none => noOutputMessage
  | some .pynone => noOutputMessage
  | some (.str t) => t
  | some v =>
      match jsonDumps v 0 with
      | some j => j
      | none => pyStr v

/-- The Formatter node `format_tool_output` of `graph.py`.  On a truthy
`error_message` it returns the `Error:`-prefixed text and clears all four
channels; otherwise it normalizes `tool_output` to a string (fixed message for
`None`, pass-through for a string, `json.dumps(..., indent=2)` with `str()`
fallback for anything else) and clears `parsed_command` and `user_command`
only — the update dict of the success branch does not contain `error_message`. -/
def format_tool_output (s : AgentState) : AgentState :=
  if truthyStr s.error_message then
    { s with tool_output := some (.str ("Error: " ++ s.error_message.getD "")),
             error_message := none, parsed_command := none, user_command := none }
  else
    { s with tool_output := some (.str (finalOutput s.tool_output)),
             parsed_command := none, user_command := none }

/-- Python `value == "NoSuitableToolFound"` on the result of
`parsed_command.get("tool_name")`: true only for the sentinel string itself
(`==` between a string and any non-string, or `None`, is `False`). -/
def isSentinelVal : Option PyVal → Bool
  | some (.str s) => s == sentinelName
  | _ => false

/-- The conditional-edge function `should_execute_tool` of `graph.py`: the name
of the next node. -/
def should_execute_tool (s : AgentState) : String :=
  if truthyStr s.error_message then "format_tool_output"
  else if truthyDict s.parsed_command &&
      !isSentinelVal (dget (s.parsed_command.getD []) "tool_name") then
    "execute_mcp_tool"
  else "format_tool_output"

/-- One full run of the compiled graph on one command: START →
`parse_user_command` → conditional edge → (`execute_mcp_tool` →)
`format_tool_output` → END, exactly the edges `builder` wires up. -/
def runPipeline (llm : LLMOutcome) (s : AgentState) : AgentState :=
  let s1 := parse_user_command s llm
  if should_execute_tool s1 = "execute_mcp_tool" then
    format_tool_output (execute_mcp_tool s1)
  else
    format_tool_output s1

/-- Modelled from the spec, §4.3: the abstract routing decision.  "If
`errorMessage` is set → format.  Else if `parsedCommand` is set and its
`toolName` is not the sentinel → execute.  Else → format."  ("Set" is Python
truthiness: `None` and an empty string/dict are not set.) -/
def route_spec (s : AgentState) : String :=
  if truthyStr s.error_message then "format"
  else if truthyDict s.parsed_command &&
      !isSentinelVal (dget (s.parsed_command.getD []) "tool_name") then "execute"
  else "format"

/- ### Helper lemmas -/

theorem ne_empty_append (a b : String) (ha : a ≠ "") : a ++ b ≠ "" := by
  intro hc
  apply ha
  have hl := congrArg String.length hc
  rw [String.length_append] at hl
  have h0 : a.length = 0 := Nat.eq_zero_of_add_eq_zero_right hl
  have hd : a.data.length = 0 := h0
  cases a with
  | mk da => cases da with
    | nil => rfl
    | cons c cs => simp at hd

theorem truthyStr_some (m : String) (h : m ≠ "") : truthyStr (some m) = true := by
  have hm : m.isEmpty = false := by
    cases hm : m.isEmpty with
    | false => rfl
    | true => exact absurd ((String.isEmpty_iff m).mp hm) h
  simp [truthyStr, hm]

theorem parseOk_sentinel (s : AgentState) (args : Dict) :
    parse_user_command s (.ok sentinelName args) =
      { s with parsed_command := none,
               error_message := some ("No suitable tool found for command: " ++
                 (match dget args "original_command" with
                  | some v => pyStr v
                  | none =>
                      match s.user_command with
                      | some c => c
                      | none => "None")) } := by
  simp [parse_user_command]

theorem parseOk_unknown (s : AgentState) (tn : String) (args : Dict)
    (hs : tn ≠ sentinelName) (hk : tn ∉ knownToolNames) :
    parse_user_command s (.ok tn args) =
      { s with parsed_command := none,
               error_message := some ("Unknown tool: " ++ tn) } := by
  simp [parse_user_command, hs, hk]

theorem parseOk_invalid (s : AgentState) (tn : String) (args : Dict) (d : String)
    (hs : tn ≠ sentinelName) (hk : tn ∈ knownToolNames)
    (hv : validateTool tn args = .error d) :
    parse_user_command s (.ok tn args) =
      { s with parsed_command := none,
               error_message := some ("Invalid arguments for " ++ tn ++ ": " ++ d) } := by
  simp [parse_user_command, hs, hk, hv]

theorem parseOk_success (s : AgentState) (tn : String) (args va : Dict)
    (hs : tn ≠ sentinelName) (hk : tn ∈ knownToolNames)
    (hv : validateTool tn args = .ok va) :
    parse_user_command s (.ok tn args) =
      { s with parsed_command := some [("tool_name", .str tn), ("args", .dict va)],
               error_message := none } := by
  simp [parse_user_command, hs, hk, hv]

theorem format_on_error (s : AgentState) (h : truthyStr s.error_message = true) :
    format_tool_output s =
      ⟨none, none, some (.str ("Error: " ++ s.error_message.getD "")), none⟩ := by
  simp [format_tool_output, h]

theorem format_on_no_error (s : AgentState) (h : truthyStr s.error_message = false) :
    format_tool_output s =
      { s with tool_output := some (.str (finalOutput s.tool_output)),
               parsed_command := none, user_command := none } := by
  simp [format_tool_output, h]

theorem route_on_error (s : AgentState) (h : truthyStr s.error_message = true) :
    should_execute_tool s = "format_tool_output" := by
  simp [should_execute_tool, h]

/- ### Claim theorems -/

/-- C10: invoking the Executor on a state whose `parsed_command` is absent or
an empty dict (both falsy in Python) does not raise: it returns an empty
`tool_output` and the error message `"No command was parsed for execution."`,
so a misrouted invocation still degrades to a formatted error. -/
theorem execute_on_unparsed_state (s : AgentState)
    (h : s.parsed_command = none ∨ s.parsed_command = some []) :
    execute_mcp_tool s =
      { s with tool_output := none,
               error_message := some "No command was parsed for execution." } := by
  rcases h with h | h <;> simp [execute_mcp_tool, truthyDict, h]

/-- Witness for C10 at the concrete state with `parsed_command = None`. -/
theorem execute_on_unparsed_state_witness :
    ((⟨some "ls", none, none, none⟩ : AgentState).parsed_command = none ∨
      (⟨some "ls", none, none, none⟩ : AgentState).parsed_command = some []) ∧
    execute_mcp_tool ⟨some "ls", none, none, none⟩ =
      ⟨some "ls", none, none, some "No command was parsed for execution."⟩ :=
  ⟨Or.inl rfl, execute_on_unparsed_state _ (Or.inl rfl)⟩

/-- C4: every failure raised while contacting or decoding from the external
LLM is caught and converted to `error_message = "Error parsing command:
<detail>"` with `parsed_command` empty — both for a raised exception carrying
`<detail>` and for an `invoke` result that is not a `ParsedCommand` (which the
code turns into a raised `ValueError("LLM did not return ParsedCommand")`
caught by the same handler).  The Parser stage is modelled as a total
function: no exception escapes its boundary. -/
theorem parse_converts_llm_failures (s : AgentState) (d : String) :
    parse_user_command s (.raised d) =
      { s with parsed_command := none,
               error_message := some ("Error parsing command: " ++ d) } ∧
    parse_user_command s .notParsedCommand =
      { s with parsed_command := none,
               error_message := some "Error parsing command: LLM did not return ParsedCommand" } :=
  ⟨rfl, rfl⟩

/-- C2: the router is a pure total function that agrees with the specified
three-case description `route_spec` (with `"execute"`/`"format"` realized as
the node names `"execute_mcp_tool"`/`"format_tool_output"`), its value is
always one of those two node names, and on the should-be-unreachable state
with every field empty it routes to the Formatter. -/
theorem router_matches_spec (s : AgentState) :
    should_execute_tool s =
      (if route_spec s = "execute" then "execute_mcp_tool" else "format_tool_output") ∧
    (route_spec s = "execute" ∨ route_spec s = "format") ∧
    should_execute_tool ⟨none, none, none, none⟩ = "format_tool_output" := by
  refine ⟨?_, ?_, rfl⟩
  · unfold should_execute_tool route_spec
    by_cases he : truthyStr s.error_message
    · simp [he]
    · by_cases hp : (truthyDict s.parsed_command &&
        !isSentinelVal (dget (s.parsed_command.getD []) "tool_name")) = true <;>
        simp [he, hp]
  · unfold route_spec
    by_cases he : truthyStr s.error_message
    · simp [he]
    · by_cases hp : (truthyDict s.parsed_command &&
        !isSentinelVal (dget (s.parsed_command.getD []) "tool_name")) = true <;>
        simp [he, hp]

/-- C1: for every input state with a non-empty `user_command` and every LLM
outcome, the Parser result has exactly one of its two result channels
meaningfully populated: either `parsed_command` is a dict referencing one of
the registered, non-sentinel tools with `error_message = None`, or
`parsed_command` is empty and `error_message` is a non-empty string. -/
theorem parse_postcondition_dichotomy (s : AgentState) (llm : LLMOutcome)
    (uc : String) (huc : s.user_command = some uc) (hne : uc ≠ "") :
    (∃ tn va,
       (parse_user_command s llm).parsed_command =
         some [("tool_name", PyVal.str tn), ("args", PyVal.dict va)] ∧
       tn ∈ knownToolNames ∧ tn ≠ sentinelName ∧
       (parse_user_command s llm).error_message = none) ∨
    ((parse_user_command s llm).parsed_command = none ∧
     ∃ m, (parse_user_command s llm).error_message = some m ∧ m ≠ "") := by
  cases llm with
  | raised d =>
      right
      exact ⟨rfl, _, rfl, ne_empty_append "Error parsing command: " d (by decide)⟩
  | notParsedCommand =>
      right
      exact ⟨rfl, _, rfl, by decide⟩
  | ok tn args =>
      by_cases hs : tn = sentinelName
      · subst hs
        right
        rw [parseOk_sentinel]
        exact ⟨rfl, _, rfl, ne_empty_append _ _ (by decide)⟩
      · by_cases hk : tn ∈ knownToolNames
        · cases hv : validateTool tn args with
          | error d =>
              right
              rw [parseOk_invalid s tn args d hs hk hv]
              exact ⟨rfl, _, rfl,
                ne_empty_append _ _ (ne_empty_append _ _ (ne_empty_append _ _ (by decide)))⟩
          | ok va =>
              left
              rw [parseOk_success s tn args va hs hk hv]
              exact ⟨tn, va, rfl, hk, hs, rfl⟩
        · right
          rw [parseOk_unknown s tn args hs hk]
          exact ⟨rfl, _, rfl, ne_empty_append _ _ (by decide)⟩

/-- Witness for C1 on the state `{user_command: "list files in /tmp"}` and an
LLM outcome selecting `ListFilesTool` with `path = "/tmp"`. -/
theorem parse_postcondition_dichotomy_witness :
    (⟨some "list files in /tmp", none, none, none⟩ : AgentState).user_command =
      some "list files in /tmp" ∧
    "list files in /tmp" ≠ "" ∧
    ((∃ tn va,
       (parse_user_command ⟨some "list files in /tmp", none, none, none⟩
           (.ok "ListFilesTool" [("path", .str "/tmp")])).parsed_command =
         some [("tool_name", PyVal.str tn), ("args", PyVal.dict va)] ∧
       tn ∈ knownToolNames ∧ tn ≠ sentinelName ∧
       (parse_user_command ⟨some "list files in /tmp", none, none, none⟩
           (.ok "ListFilesTool" [("path", .str "/tmp")])).error_message = none) ∨
     ((parse_user_command ⟨some "list files in /tmp", none, none, none⟩
           (.ok "ListFilesTool" [("path", .str "/tmp")])).parsed_command = none ∧
      ∃ m, (parse_user_command ⟨some "list files in /tmp", none, none, none⟩
           (.ok "ListFilesTool" [("path", .str "/tmp")])).error_message = some m ∧ m ≠ "")) :=
  ⟨rfl, by decide,
    parse_postcondition_dichotomy _ (.ok "ListFilesTool" [("path", .str "/tmp")]) _
      rfl (by decide)⟩

/-- C9: when the LLM returns a tool name that is neither the sentinel nor one
of the three registered tools, the Parser produces `error_message = "Unknown
tool: <toolName>"` with `parsed_command` empty, the router sends the state
straight to the Formatter (the full pipeline run equals the Formatter applied
to the Parser result, so the Executor is never invoked), and the final
output is `"Error: Unknown tool: <name>"`. -/
theorem unknown_tool_pipeline (s : AgentState) (tn : String) (args : Dict)
    (hs : tn ≠ sentinelName) (hk : tn ∉ knownToolNames) :
    (parse_user_command s (.ok tn args)).error_message = some ("Unknown tool: " ++ tn) ∧
    (parse_user_command s (.ok tn args)).parsed_command = none ∧
    should_execute_tool (parse_user_command s (.ok tn args)) = "format_tool_output" ∧
    runPipeline (.ok tn args) s = format_tool_output (parse_user_command s (.ok tn args)) ∧
    (runPipeline (.ok tn args) s).tool_output =
      some (.str ("Error: Unknown tool: " ++ tn)) := by
  have hp := parseOk_unknown s tn args hs hk
  have hm : ("Unknown tool: " ++ tn) ≠ "" := ne_empty_append _ _ (by decide)
  have ht : truthyStr (parse_user_command s (.ok tn args)).error_message = true := by
    rw [hp]
    exact truthyStr_some _ hm
  have hr : should_execute_tool (parse_user_command s (.ok tn args)) = "format_tool_output" :=
    route_on_error _ ht
  have h4 : runPipeline (.ok tn args) s = format_tool_output (parse_user_command s (.ok tn args)) := by
    simp only [runPipeline]
    rw [hr]
    simp
  refine ⟨by rw [hp], by rw [hp], hr, h4, ?_⟩
  rw [h4, format_on_error _ ht, hp]
  show some (PyVal.str ("Error: " ++ ("Unknown tool: " ++ tn))) = _
  rw [← String.append_assoc]
  exact congrArg (fun p => some (PyVal.str (p ++ tn))) (by decide)

/-- Witness for C9 with the unregistered tool name `"WeatherTool"`. -/
theorem unknown_tool_pipeline_witness :
    ("WeatherTool" ≠ sentinelName ∧ "WeatherTool" ∉ knownToolNames) ∧
    ((parse_user_command ⟨some "how is the weather", none, none, none⟩
        (.ok "WeatherTool" [])).error_message = some ("Unknown tool: " ++ "WeatherTool") ∧
     (parse_user_command ⟨some "how is the weather", none, none, none⟩
        (.ok "WeatherTool" [])).parsed_command = none ∧
     should_execute_tool (parse_user_command ⟨some "how is the weather", none, none, none⟩
        (.ok "WeatherTool" [])) = "format_tool_output" ∧
     runPipeline (.ok "WeatherTool" []) ⟨some "how is the weather", none, none, none⟩ =
       format_tool_output (parse_user_command ⟨some "how is the weather", none, none, none⟩
        (.ok "WeatherTool" [])) ∧
     (runPipeline (.ok "WeatherTool" []) ⟨some "how is the weather", none, none, none⟩).tool_output =
       some (.str ("Error: Unknown tool: " ++ "WeatherTool"))) :=
  ⟨⟨by decide, by decide⟩,
    unknown_tool_pipeline ⟨some "how is the weather", none, none, none⟩ "WeatherTool" []
      (by decide) (by decide)⟩

/-- C5: when the LLM returns the sentinel tool name `"NoSuitableToolFound"`
(with `original_command` echoing the raw command, or no `original_command`
key, as the prompt instructs), the Parser produces `error_message = "No
suitable tool found for command: <original command>"` with `parsed_command`
empty, the router takes the format branch, and the final formatted
`tool_output` is `"Error: No suitable tool found for command: <original>"`. -/
theorem sentinel_pipeline (s : AgentState) (uc : String) (args : Dict)
    (huc : s.user_command = some uc)
    (ha : dget args "original_command" = none ∨
          dget args "original_command" = some (.str uc)) :
    (parse_user_command s (.ok sentinelName args)).error_message =
      some ("No suitable tool found for command: " ++ uc) ∧
    (parse_user_command s (.ok sentinelName args)).parsed_command = none ∧
    should_execute_tool (parse_user_command s (.ok sentinelName args)) = "format_tool_output" ∧
    (runPipeline (.ok sentinelName args) s).tool_output =
      some (.str ("Error: No suitable tool found for command: " ++ uc)) := by
  have hp : parse_user_command s (.ok sentinelName args) =
      { s with parsed_command := none,
               error_message := some ("No suitable tool found for command: " ++ uc) } := by
    rw [parseOk_sentinel]
    rcases ha with h | h <;> simp [h, huc, pyStr]
  have hm : ("No suitable tool found for command: " ++ uc) ≠ "" :=
    ne_empty_append _ _ (by decide)
  have ht : truthyStr (parse_user_command s (.ok sentinelName args)).error_message = true := by
    rw [hp]
    exact truthyStr_some _ hm
  have hr := route_on_error _ ht
  have h4 : runPipeline (.ok sentinelName args) s =
      format_tool_output (parse_user_command s (.ok sentinelName args)) := by
    simp only [runPipeline]
    rw [hr]
    simp
  refine ⟨by rw [hp], by rw [hp], hr, ?_⟩
  rw [h4, format_on_error _ ht, hp]
  show some (PyVal.str ("Error: " ++ ("No suitable tool found for command: " ++ uc))) = _
  rw [← String.append_assoc]
  exact congrArg (fun p => some (PyVal.str (p ++ uc))) (by decide)

/-- Witness for C5 on the command `"how is the weather"` with an LLM sentinel
response carrying no `original_command` key. -/
theorem sentinel_pipeline_witness :
    ((⟨some "how is the weather", none, none, none⟩ : AgentState).user_command =
        some "how is the weather" ∧
     (dget ([] : Dict) "original_command" = none ∨
      dget ([] : Dict) "original_command" = some (.str "how is the weather"))) ∧
    ((parse_user_command ⟨some "how is the weather", none, none, none⟩
        (.ok sentinelName [])).error_message =
       some ("No suitable tool found for command: " ++ "how is the weather") ∧
     (parse_user_command ⟨some "how is the weather", none, none, none⟩
        (.ok sentinelName [])).parsed_command = none ∧
     should_execute_tool (parse_user_command ⟨some "how is the weather", none, none, none⟩
        (.ok sentinelName [])) = "format_tool_output" ∧
     (runPipeline (.ok sentinelName []) ⟨some "how is the weather", none, none, none⟩).tool_output =
       some (.str ("Error: No suitable tool found for command: " ++ "how is the weather"))) :=
  ⟨⟨rfl, Or.inl rfl⟩,
    sentinel_pipeline ⟨some "how is the weather", none, none, none⟩ "how is the weather" []
      rfl (Or.inl rfl)⟩

/-- Counterexample to C3 as stated: for the known tool `ListFilesTool` with an
argument mapping containing the unknown extra field `"recursive"`, validation
does not reject the mapping — the pydantic default model config ignores unknown
fields — so the Parser succeeds with `error_message = None` and a
`parsed_command` whose validated args contain only the schema field `path`. -/
theorem extra_field_not_rejected :
    (parse_user_command ⟨some "list files in /tmp", none, none, none⟩
        (.ok "ListFilesTool" [("path", .str "/tmp"), ("recursive", .str "true")])).error_message
      = none ∧
    (parse_user_command ⟨some "list files in /tmp", none, none, none⟩
        (.ok "ListFilesTool" [("path", .str "/tmp"), ("recursive", .str "true")])).parsed_command
      = some [("tool_name", .str "ListFilesTool"), ("args", .dict [("path", .str "/tmp")])] :=
  ⟨rfl, rfl⟩

/-- C3 amended: for a known tool, validation requires the required field to be
present (a missing `path` is rejected for `ReadFileTool`/`CreateDirectoryTool`,
while `ListFilesTool` fills its default `"."`), unknown extra fields are
ignored — the validated args contain exactly the schema field `path` — and on
any validation failure the Parser produces `error_message = "Invalid arguments
for <toolName>: <validation detail>"` with `parsed_command` empty. -/
theorem validation_amended (s : AgentState) (tn : String) (args : Dict)
    (hs : tn ≠ sentinelName) (hk : tn ∈ knownToolNames) :
    parse_user_command s (.ok tn args) =
      (match validateTool tn args with
       | .error d =>
           { s with parsed_command := none,
                    error_message := some ("Invalid arguments for " ++ tn ++ ": " ++ d) }
       | .ok va =>
           { s with parsed_command := some [("tool_name", .str tn), ("args", .dict va)],
                    error_message := none }) ∧
    (match validateTool tn args with
     | .error _ => True
     | .ok va => va.map Prod.fst = ["path"]) ∧
    (dget args "path" = none →
      validateTool tn args =
        (if tn = "ListFilesTool" then .ok [("path", .str ".")]
         else .error "path: Field required")) := by
  refine ⟨?_, ?_, ?_⟩
  · cases hv : validateTool tn args with
    | error d => exact parseOk_invalid s tn args d hs hk hv
    | ok va => exact parseOk_success s tn args va hs hk hv
  · unfold validateTool
    by_cases h1 : tn = "ListFilesTool"
    · rw [if_pos h1]
      cases hd : dget args "path" with
      | none => simp
      | some val => cases val <;> simp
    · rw [if_neg h1]
      cases hd : dget args "path" with
      | none => simp
      | some val => cases val <;> simp
  · intro hd
    unfold validateTool
    by_cases h1 : tn = "ListFilesTool" <;> simp [h1, hd]

/-- Witness for the amended C3 theorem: `ReadFileTool` invoked with an empty
argument mapping is rejected for the missing required `path`. -/
theorem validation_amended_witness :
    ("ReadFileTool" ≠ sentinelName ∧ "ReadFileTool" ∈ knownToolNames) ∧
    (parse_user_command ⟨some "read it", none, none, none⟩ (.ok "ReadFileTool" []) =
      (match validateTool "ReadFileTool" [] with
       | .error d =>
           ⟨some "read it", none, none,
             some ("Invalid arguments for " ++ "ReadFileTool" ++ ": " ++ d)⟩
       | .ok va =>
           ⟨some "read it",
             some [("tool_name", .str "ReadFileTool"), ("args", .dict va)], none, none⟩) ∧
     (match validateTool "ReadFileTool" [] with
      | .error _ => True
      | .ok va => va.map Prod.fst = ["path"]) ∧
     (dget ([] : Dict) "path" = none →
       validateTool "ReadFileTool" [] =
         (if "ReadFileTool" = "ListFilesTool" then .ok [("path", .str ".")]
          else .error "path: Field required"))) :=
  ⟨⟨by decide, by decide⟩,
    validation_amended ⟨some "read it", none, none, none⟩ "ReadFileTool" []
      (by decide) (by decide)⟩

/-- C6: for every state whose `parsed_command` carries one of the three
registered tool names with well-formed arguments (a string `path`) and no
pending error, the router yields the execute branch and the Executor returns a
non-empty string `tool_output` that contains both the tool name and the path
argument, with `error_message` empty. -/
theorem known_tool_executes (s : AgentState) (tn p : String) (va : Dict)
    (hk : tn ∈ knownToolNames)
    (he : truthyStr s.error_message = false)
    (hpc : s.parsed_command = some [("tool_name", .str tn), ("args", .dict va)])
    (hpath : dget va "path" = some (.str p)) :
    should_execute_tool s = "execute_mcp_tool" ∧
    ∃ out : String,
      (execute_mcp_tool s).tool_output = some (.str out) ∧
      (execute_mcp_tool s).error_message = none ∧
      out ≠ "" ∧ (∃ a b, out = a ++ tn ++ b) ∧ (∃ c d, out = c ++ p ++ d) := by
  have h1 : dget [("tool_name", PyVal.str tn), ("args", PyVal.dict va)] "tool_name" =
      some (.str tn) := rfl
  have h2 : dget [("tool_name", PyVal.str tn), ("args", PyVal.dict va)] "args" =
      some (.dict va) := rfl
  simp only [knownToolNames, List.mem_cons, List.not_mem_nil, or_false] at hk
  rcases hk with h | h | h
  · subst h
    refine ⟨by simp [should_execute_tool, he, hpc, truthyDict, h1, isSentinelVal, sentinelName],
      "Mock success: " ++ sq ++ "ListFilesTool" ++ sq ++ " called with path " ++ sq ++ p ++ sq,
      by simp [execute_mcp_tool, truthyDict, hpc, h1, h2, hpath, pyStr],
      by simp [execute_mcp_tool, truthyDict, hpc, h1, h2, hpath, pyStr],
      ne_empty_append _ _ (ne_empty_append _ _ (ne_empty_append _ _ (ne_empty_append _ _
        (ne_empty_append _ _ (ne_empty_append _ _ (by decide)))))),
      ⟨"Mock success: " ++ sq, sq ++ " called with path " ++ sq ++ p ++ sq,
        by simp [String.append_assoc]⟩,
      ⟨"Mock success: " ++ sq ++ "ListFilesTool" ++ sq ++ " called with path " ++ sq, sq,
        by simp [String.append_assoc]⟩⟩
  · subst h
    refine ⟨by simp [should_execute_tool, he, hpc, truthyDict, h1, isSentinelVal, sentinelName],
      "Mock success: " ++ sq ++ "ReadFileTool" ++ sq ++ " called to read file " ++ sq ++ p ++ sq,
      by simp [execute_mcp_tool, truthyDict, hpc, h1, h2, hpath, pyStr],
      by simp [execute_mcp_tool, truthyDict, hpc, h1, h2, hpath, pyStr],
      ne_empty_append _ _ (ne_empty_append _ _ (ne_empty_append _ _ (ne_empty_append _ _
        (ne_empty_append _ _ (ne_empty_append _ _ (by decide)))))),
      ⟨"Mock success: " ++ sq, sq ++ " called to read file " ++ sq ++ p ++ sq,
        by simp [String.append_assoc]⟩,
      ⟨"Mock success: " ++ sq ++ "ReadFileTool" ++ sq ++ " called to read file " ++ sq, sq,
        by simp [String.append_assoc]⟩⟩
  · subst h
    refine ⟨by simp [should_execute_tool, he, hpc, truthyDict, h1, isSentinelVal, sentinelName],
      "Mock success: " ++ sq ++ "CreateDirectoryTool" ++ sq ++ " called to create directory " ++
        sq ++ p ++ sq,
      by simp [execute_mcp_tool, truthyDict, hpc, h1, h2, hpath, pyStr],
      by simp [execute_mcp_tool, truthyDict, hpc, h1, h2, hpath, pyStr],
      ne_empty_append _ _ (ne_empty_append _ _ (ne_empty_append _ _ (ne_empty_append _ _
        (ne_empty_append _ _ (ne_empty_append _ _ (by decide)))))),
      ⟨"Mock success: " ++ sq, sq ++ " called to create directory " ++ sq ++ p ++ sq,
        by simp [String.append_assoc]⟩,
      ⟨"Mock success: " ++ sq ++ "CreateDirectoryTool" ++ sq ++ " called to create directory " ++
        sq, sq, by simp [String.append_assoc]⟩⟩

/-- Witness for C6: `ReadFileTool` on path `/etc/hosts`. -/
theorem known_tool_executes_witness :
    ("ReadFileTool" ∈ knownToolNames ∧
     truthyStr (⟨some "cat /etc/hosts",
        some [("tool_name", .str "ReadFileTool"), ("args", .dict [("path", .str "/etc/hosts")])],
        none, none⟩ : AgentState).error_message = false ∧
     (⟨some "cat /etc/hosts",
        some [("tool_name", .str "ReadFileTool"), ("args", .dict [("path", .str "/etc/hosts")])],
        none, none⟩ : AgentState).parsed_command =
       some [("tool_name", .str "ReadFileTool"), ("args", .dict [("path", .str "/etc/hosts")])] ∧
     dget [("path", .str "/etc/hosts")] "path" = some (.str "/etc/hosts")) ∧
    (should_execute_tool ⟨some "cat /etc/hosts",
        some [("tool_name", .str "ReadFileTool"), ("args", .dict [("path", .str "/etc/hosts")])],
        none, none⟩ = "execute_mcp_tool" ∧
     ∃ out : String,
       (execute_mcp_tool ⟨some "cat /etc/hosts",
          some [("tool_name", .str "ReadFileTool"), ("args", .dict [("path", .str "/etc/hosts")])],
          none, none⟩).tool_output = some (.str out) ∧
       (execute_mcp_tool ⟨some "cat /etc/hosts",
          some [("tool_name", .str "ReadFileTool"), ("args", .dict [("path", .str "/etc/hosts")])],
          none, none⟩).error_message = none ∧
       out ≠ "" ∧ (∃ a b, out = a ++ "ReadFileTool" ++ b) ∧
       (∃ c d, out = c ++ "/etc/hosts" ++ d)) :=
  ⟨⟨by decide, rfl, rfl, rfl⟩,
    known_tool_executes _ "ReadFileTool" "/etc/hosts" [("path", .str "/etc/hosts")]
      (by decide) rfl rfl rfl⟩

/-- Whether a `PyVal` is a Python string (`isinstance(x, str)`). -/
def isStrVal : PyVal → Bool
  | .str _ => true
  | _ => false

/-- C7: the Formatter is total (it is a Lean function, so it terminates and
never raises) and behaves per branch: a truthy `error_message` yields
`"Error: "` prefixed to it with the whole state cleared; otherwise the output
is normalized by `finalOutput` — the fixed no-output message when
`tool_output` is absent or `None`, the string itself when it is a string, and
for any structured value the `json.dumps(..., indent=2)` serialization with
fallback to the generic `str()` conversion whenever serialization fails. -/
theorem formatter_branches (uc : Option String) (pc : Option Dict)
    (tov : Option PyVal) (em : Option String) (t : String) (v : PyVal) :
    (truthyStr em = true →
       format_tool_output ⟨uc, pc, tov, em⟩ =
         ⟨none, none, some (.str ("Error: " ++ em.getD "")), none⟩) ∧
    (truthyStr em = false →
       format_tool_output ⟨uc, pc, tov, em⟩ =
         ⟨none, none, some (.str (finalOutput tov)), em⟩) ∧
    finalOutput none = noOutputMessage ∧
    finalOutput (some .pynone) = noOutputMessage ∧
    finalOutput (some (.str t)) = t ∧
    (isStrVal v = false → v ≠ .pynone →
       finalOutput (some v) =
         (match jsonDumps v 0 with
          | some j => j
          | none => pyStr v)) := by
  refine ⟨fun h => format_on_error _ h, fun h => format_on_no_error _ h, rfl, rfl, rfl, ?_⟩
  intro hstr hnone
  cases v with
  | str t => simp [isStrVal] at hstr
  | pynone => exact absurd rfl hnone
  | int n => rfl
  | list xs => rfl
  | dict xs => rfl
  | obj o => rfl

/-- Witness for C7: the error branch on `"boom"`, the success branch and the
serialization fallback on the unserializable value `[<object X>]`. -/
theorem formatter_branches_witness :
    (truthyStr (some "boom") = true ∧
     format_tool_output ⟨some "c", some [], some (.str "out"), some "boom"⟩ =
       ⟨none, none, some (.str ("Error: " ++ (some "boom").getD "")), none⟩) ∧
    (truthyStr (none : Option String) = false ∧
     format_tool_output ⟨some "c", none, some (.list [.obj "X"]), none⟩ =
       ⟨none, none, some (.str (finalOutput (some (.list [.obj "X"])))), none⟩) ∧
    (isStrVal (.list [.obj "X"]) = false ∧ (PyVal.list [.obj "X"]) ≠ .pynone ∧
     finalOutput (some (.list [.obj "X"])) =
       (match jsonDumps (.list [.obj "X"]) 0 with
        | some j => j
        | none => pyStr (.list [.obj "X"]))) :=
  ⟨⟨rfl, (formatter_branches (some "c") (some []) (some (.str "out")) (some "boom")
      "" .pynone).1 rfl⟩,
   ⟨rfl, (formatter_branches (some "c") none (some (.list [.obj "X"])) none
      "" .pynone).2.1 rfl⟩,
   ⟨rfl, fun h => PyVal.noConfusion h,
     (formatter_branches none none none none "" (.list [.obj "X"])).2.2.2.2.2
       rfl (fun h => PyVal.noConfusion h)⟩⟩

theorem pipeline_format_branch (s : AgentState) (llm : LLMOutcome)
    (ht : truthyStr (parse_user_command s llm).error_message = true) :
    runPipeline llm s =
      ⟨none, none,
        some (.str ("Error: " ++ (parse_user_command s llm).error_message.getD "")), none⟩ := by
  have hr := route_on_error _ ht
  simp only [runPipeline]
  rw [hr, if_neg (show ¬("format_tool_output" = "execute_mcp_tool") by decide)]
  exact format_on_error _ ht

theorem parse_error_truthy (s : AgentState) (llm : LLMOutcome) (m : String)
    (hp : parse_user_command s llm =
      { s with parsed_command := none, error_message := some m })
    (hm : m ≠ "") :
    truthyStr (parse_user_command s llm).error_message = true := by
  rw [hp]
  exact truthyStr_some m hm

theorem execute_on_valid (s : AgentState) (tn : String) (va : Dict)
    (hk : tn ∈ knownToolNames)
    (hpc : s.parsed_command = some [("tool_name", .str tn), ("args", .dict va)]) :
    ∃ out, execute_mcp_tool s =
      { s with tool_output := some (.str out), error_message := none } := by
  have h1 : dget [("tool_name", PyVal.str tn), ("args", PyVal.dict va)] "tool_name" =
      some (.str tn) := rfl
  have h2 : dget [("tool_name", PyVal.str tn), ("args", PyVal.dict va)] "args" =
      some (.dict va) := rfl
  simp only [knownToolNames, List.mem_cons, List.not_mem_nil, or_false] at hk
  rcases hk with h | h | h
  · subst h
    exact ⟨"Mock success: " ++ sq ++ "ListFilesTool" ++ sq ++ " called with path " ++ sq ++
        pyStr ((dget va "path").getD (.str ".")) ++ sq,
      by simp [execute_mcp_tool, truthyDict, hpc, h1, h2]⟩
  · subst h
    exact ⟨"Mock success: " ++ sq ++ "ReadFileTool" ++ sq ++ " called to read file " ++ sq ++
        pyStr ((dget va "path").getD .pynone) ++ sq,
      by simp [execute_mcp_tool, truthyDict, hpc, h1, h2]⟩
  · subst h
    exact ⟨"Mock success: " ++ sq ++ "CreateDirectoryTool" ++ sq ++ " called to create directory " ++
        sq ++ pyStr ((dget va "path").getD .pynone) ++ sq,
      by simp [execute_mcp_tool, truthyDict, hpc, h1, h2]⟩

/-- C8: after any complete command cycle — whichever branch the router takes —
the fields `user_command`, `parsed_command` and `error_message` of the final state are all
empty. -/
theorem cycle_resets_state (s : AgentState) (llm : LLMOutcome) :
    (runPipeline llm s).user_command = none ∧
    (runPipeline llm s).parsed_command = none ∧
    (runPipeline llm s).error_message = none := by
  cases llm with
  | raised d =>
      rw [pipeline_format_branch s _ (parse_error_truthy s (.raised d)
        ("Error parsing command: " ++ d) rfl
        (ne_empty_append "Error parsing command: " d (by decide)))]
      exact ⟨rfl, rfl, rfl⟩
  | notParsedCommand =>
      rw [pipeline_format_branch s _ (parse_error_truthy s .notParsedCommand
        "Error parsing command: LLM did not return ParsedCommand" rfl (by decide))]
      exact ⟨rfl, rfl, rfl⟩
  | ok tn args =>
      by_cases hs : tn = sentinelName
      · subst hs
        rw [pipeline_format_branch s _ (parse_error_truthy s _ _ (parseOk_sentinel s args)
          (ne_empty_append "No suitable tool found for command: " _ (by decide)))]
        exact ⟨rfl, rfl, rfl⟩
      · by_cases hk : tn ∈ knownToolNames
        · cases hv : validateTool tn args with
          | error d =>
              rw [pipeline_format_branch s _ (parse_error_truthy s _ _
                (parseOk_invalid s tn args d hs hk hv)
                (ne_empty_append _ _ (ne_empty_append _ _
                  (ne_empty_append "Invalid arguments for " tn (by decide)))))]
              exact ⟨rfl, rfl, rfl⟩
          | ok va =>
              have hp := parseOk_success s tn args va hs hk hv
              have h1 : dget [("tool_name", PyVal.str tn), ("args", PyVal.dict va)] "tool_name" =
                  some (.str tn) := rfl
              have hr : should_execute_tool (parse_user_command s (.ok tn args)) =
                  "execute_mcp_tool" := by
                rw [hp]
                simp [should_execute_tool, truthyStr, truthyDict, h1, isSentinelVal, hs]
              obtain ⟨out, hexec⟩ := execute_on_valid (parse_user_command s (.ok tn args)) tn va hk
                (by rw [hp])
              have hfmt := format_on_no_error (execute_mcp_tool (parse_user_command s (.ok tn args)))
                (by rw [hexec, hp]; rfl)
              simp only [runPipeline]
              rw [hr, if_pos rfl, hfmt, hexec, hp]
              exact ⟨rfl, rfl, rfl⟩
        · rw [pipeline_format_branch s _ (parse_error_truthy s _ _
            (parseOk_unknown s tn args hs hk)
            (ne_empty_append "Unknown tool: " tn (by decide)))]
          exact ⟨rfl, rfl, rfl⟩

end TerminalAgent
